import Mathlib

/-!
Shallow embedding of the Secret Santa game server (`app.py`).

Python dicts are modelled as insertion-ordered association lists over
`String` keys (`Dict α`): assignment updates a key in place or appends a
fresh key at the end, deletion removes the key, and iteration follows the
list order — matching CPython dict semantics.  Timestamps
(`datetime.now()`) are modelled as an external `Nat` clock value passed
into each operation that reads the clock.  Socket-IO `emit` calls are
modelled as a list of `(Audience, OutMsg)` pairs returned by each event
handler; the global `games` dict is the `Registry` threaded through the
handlers.  A Python `KeyError` is modelled by an `Option` result.
-/

namespace SecretSanta

/-- Insertion-ordered string-keyed map, the model of a Python `dict`. -/
abbrev Dict (α : Type) := List (String × α)

/-- `d[k]` lookup as an `Option` (first entry with key `k`). -/
def Dict.find? {α : Type} : Dict α → String → Option α
  | [], _ => none
  | (k, v) :: rest, key => if k = key then some v else Dict.find? rest key

/-- `k in d`. -/
def Dict.contains {α : Type} (d : Dict α) (key : String) : Bool :=
  (d.find? key).isSome

/-- `d[k] = v`: update in place when the key exists, else append. -/
def Dict.insert {α : Type} : Dict α → String → α → Dict α
  | [], key, v => [(key, v)]
  | (k, w) :: rest, key, v =>
    if k = key then (key, v) :: rest else (k, w) :: Dict.insert rest key v

/-- `del d[k]` (no-op when the key is absent, callers guard with `in`). -/
def Dict.erase {α : Type} : Dict α → String → Dict α
  | [], _ => []
  | (k, w) :: rest, key =>
    if k = key then rest else (k, w) :: Dict.erase rest key

/-- A `members` entry: `{'name': ..., 'joined_at': datetime.now()}`. -/
structure Player where
  name : String
  joined_at : Nat
deriving DecidableEq

/-- A `completed` entry: `{'timestamp', 'guess_count', 'santa'}`. -/
structure Completion where
  timestamp : Nat
  guess_count : Nat
  santa : String
deriving DecidableEq

/-- The `Game` class: one room's full session state. -/
structure Game where
  host_id : String
  players : Dict Player
  assignments : Dict String
  guesses : Dict (List String)
  completed : Dict Completion
  started : Bool
deriving DecidableEq

/-- `Game.__init__(host_id)`. -/
def Game.init (host_id : String) : Game :=
  { host_id := host_id
    players := []
    assignments := []
    guesses := []
    completed := []
    started := false }

/-- `Game.add_player(sid, name)`. -/
def Game.add_player (g : Game) (sid name : String) (now : Nat) : Game :=
  { g with
    players := g.players.insert sid { name := name, joined_at := now }
    guesses := g.guesses.insert name [] }

/-- `Game.remove_player(sid)`: deletes the membership entry and the
display-name-keyed entries in `guesses`, `assignments`, `completed`. -/
def Game.remove_player (g : Game) (sid : String) : Game :=
  match g.players.find? sid with
  | none => g
  | some p =>
    { g with
      players := g.players.erase sid
      guesses := g.guesses.erase p.name
      assignments := g.assignments.erase p.name
      completed := g.completed.erase p.name }

/-- `Game.set_assignment(player_name, got_name)`: unconditional upsert. -/
def Game.set_assignment (g : Game) (player_name got_name : String) : Game :=
  { g with assignments := g.assignments.insert player_name got_name }

/-- The `for santa, recipient in self.assignments.items()` scan with
`break`: first key (in insertion order) whose value is `player_name`. -/
def findSanta : Dict String → String → Option String
  | [], _ => none
  | (santa, recipient) :: rest, player_name =>
    if recipient = player_name then some santa else findSanta rest player_name

/-- `Game.make_guess(player_name, guessed_santa)`.  `none` models the
`KeyError` raised by `self.guesses[player_name]` when the player never
joined; otherwise returns the updated game and the `bool` result. -/
def Game.make_guess (g : Game) (player_name guessed_santa : String) (now : Nat) :
    Option (Game × Bool) :=
  match g.guesses.find? player_name with
  | none => none
  | some log =>
    let log' := log ++ [guessed_santa]
    let g1 := { g with guesses := g.guesses.insert player_name log' }
    match findSanta g1.assignments player_name with
    | some actual_santa =>
      if actual_santa = guessed_santa then
        some ({ g1 with
                 completed := g1.completed.insert player_name
                   { timestamp := now, guess_count := log'.length, santa := actual_santa } },
              true)
      else
        some (g1, false)
    | none => some (g1, false)

/-- One row of the leaderboard returned by `Game.get_leaderboard`. -/
structure LBEntry where
  rank : Nat
  player : String
  guesses : Nat
  santa : String
deriving DecidableEq

/-- The sort key of `get_leaderboard`: lexicographic on
`(guess_count, timestamp)`, as Python compares the key tuples. -/
def lbRel (a b : String × Completion) : Prop :=
  a.2.guess_count < b.2.guess_count ∨
    (a.2.guess_count = b.2.guess_count ∧ a.2.timestamp ≤ b.2.timestamp)

instance : DecidableRel lbRel := fun a b => by
  unfold lbRel; infer_instance

instance : IsTotal (String × Completion) lbRel := by
  constructor
  intro a b
  unfold lbRel
  omega

instance : IsTrans (String × Completion) lbRel := by
  constructor
  intro a b c hab hbc
  unfold lbRel at *
  omega

/-- `Game.get_leaderboard()`: sort `completed.items()` by
`(guess_count, timestamp)` and number the rows starting at 1. -/
def Game.get_leaderboard (g : Game) : List LBEntry :=
  let sorted_completed := List.insertionSort lbRel g.completed
  sorted_completed.enum.map fun ie =>
    { rank := ie.1 + 1
      player := ie.2.1
      guesses := ie.2.2.guess_count
      santa := ie.2.2.santa }

/-- `Game.is_complete()`. -/
def Game.is_complete (g : Game) : Bool :=
  if g.players.isEmpty then false else g.completed.length == g.players.length

/-- Who an outbound `emit` goes to: the requesting connection
(`emit(...)`) or the whole room (`emit(..., room=room_code)`). -/
inductive Audience where
  | requester : Audience
  | room (code : String) : Audience
deriving DecidableEq

/-- The outbound events the handlers emit, with their payload fields. -/
inductive OutMsg where
  | error (message : String) : OutMsg
  | game_created (room_code : String) : OutMsg
  | joined_game (room_code player_name : String) : OutMsg
  | player_list_update (players : List String) (count : Nat) : OutMsg
  | assignment_submitted (player_name : String) (total submitted : Nat)
      (all_ready : Bool) : OutMsg
  | game_started (message : String) : OutMsg
  | guess_result (correct : Bool) (guessed : String) (attempts : Nat) : OutMsg
  | player_completed (player santa : String) (attempts rank : Nat) : OutMsg
  | leaderboard_update (leaderboard : List LBEntry) (game_complete : Bool) : OutMsg
  | game_state (players : List String) (started : Bool)
      (leaderboard : List LBEntry) (game_complete : Bool) : OutMsg
  | player_disconnected (player : String) : OutMsg
deriving DecidableEq

/-- The global `games` dict: room code → session. -/
abbrev Registry := Dict Game

/-- What one handler run produces: the new registry and the emits. -/
abbrev HandlerResult := Registry × List (Audience × OutMsg)

/-- The `while room_code in games` retry loop of `handle_create_game`,
with the random stream of `generate_code()` outputs supplied as a list:
first candidate not already a live room code. -/
def firstFresh (games : Registry) : List String → Option String
  | [] => none
  | c :: rest => if games.contains c then firstFresh games rest else some c

/-- `handle_create_game()`: store a fresh `Game(request.sid)` under the
first unused generated code (`none` only when the supplied candidate
stream runs out, which the unbounded Python loop never does). -/
def handle_create_game (games : Registry) (sid : String) (codes : List String) :
    Option HandlerResult :=
  match firstFresh games codes with
  | none => none
  | some room_code =>
    some (games.insert room_code (Game.init sid),
          [(Audience.requester, OutMsg.game_created room_code)])

/-- Python's `str.upper()`: uppercase every character. -/
def upper (s : String) : String := String.mk (s.data.map Char.toUpper)

/-- `handle_join_game(data)`: the one handler that uppercases the room
code before lookup. -/
def handle_join_game (games : Registry) (sid room_code player_name : String)
    (now : Nat) : HandlerResult :=
  let code := upper room_code
  match games.find? code with
  | none => (games, [(Audience.requester, OutMsg.error "Game not found")])
  | some game =>
    if game.started then
      (games, [(Audience.requester, OutMsg.error "Game already started")])
    else if game.players.any fun p => p.2.name = player_name then
      (games, [(Audience.requester, OutMsg.error "Name already taken")])
    else
      let game' := game.add_player sid player_name now
      let player_list := game'.players.map fun p => p.2.name
      (games.insert code game',
       [(Audience.requester, OutMsg.joined_game code player_name),
        (Audience.room code, OutMsg.player_list_update player_list player_list.length)])

/-- `handle_submit_assignment(data)`: looks the room code up verbatim. -/
def handle_submit_assignment (games : Registry) (room_code player_name got_name : String) :
    HandlerResult :=
  match games.find? room_code with
  | none => (games, [(Audience.requester, OutMsg.error "Game not found")])
  | some game =>
    let game' := game.set_assignment player_name got_name
    let all_assigned := game'.assignments.length == game'.players.length
    (games.insert room_code game',
     [(Audience.room room_code,
       OutMsg.assignment_submitted player_name game'.players.length
         game'.assignments.length all_assigned)])

/-- `handle_start_game(data)`: looks the room code up verbatim. -/
def handle_start_game (games : Registry) (sid room_code : String) : HandlerResult :=
  match games.find? room_code with
  | none => (games, [(Audience.requester, OutMsg.error "Game not found")])
  | some game =>
    if sid ≠ game.host_id then
      (games, [(Audience.requester, OutMsg.error "Only host can start game")])
    else if game.assignments.length ≠ game.players.length then
      (games, [(Audience.requester, OutMsg.error "Not all players have submitted assignments")])
    else
      (games.insert room_code { game with started := true },
       [(Audience.room room_code,
         OutMsg.game_started "Game has started! Guess who your Secret Santa is!")])

/-- `handle_make_guess(data)`: looks the room code up verbatim; `none`
models the uncaught `KeyError` escaping from `Game.make_guess`. -/
def handle_make_guess (games : Registry) (room_code player_name guessed_santa : String)
    (now : Nat) : Option HandlerResult :=
  match games.find? room_code with
  | none => some (games, [(Audience.requester, OutMsg.error "Game not found")])
  | some game =>
    if game.started = false then
      some (games, [(Audience.requester, OutMsg.error "Game not started yet")])
    else if game.completed.contains player_name then
      some (games, [(Audience.requester, OutMsg.error "You already found your Santa!")])
    else
      match game.make_guess player_name guessed_santa now with
      | none => none
      | some (game', is_correct) =>
        let attempts := ((game'.guesses.find? player_name).map List.length).getD 0
        let base := [(Audience.requester,
                      OutMsg.guess_result is_correct guessed_santa attempts)]
        let extra :=
          if is_correct then
            [(Audience.room room_code,
              OutMsg.player_completed player_name guessed_santa attempts
                game'.completed.length),
             (Audience.room room_code,
              OutMsg.leaderboard_update game'.get_leaderboard game'.is_complete)]
          else []
        some (games.insert room_code game', base ++ extra)

/-- `handle_get_game_state(data)`: looks the room code up verbatim. -/
def handle_get_game_state (games : Registry) (room_code : String) : HandlerResult :=
  match games.find? room_code with
  | none => (games, [(Audience.requester, OutMsg.error "Game not found")])
  | some game =>
    (games,
     [(Audience.requester,
       OutMsg.game_state (game.players.map fun p => p.2.name) game.started
         game.get_leaderboard game.is_complete)])

/-- `handle_disconnect()`: scan the rooms in registry order, remove the
player from the first room containing the connection, delete the room
when it became empty, and `break`. -/
def handle_disconnect (games : Registry) (sid : String) : HandlerResult :=
  match games with
  | [] => ([], [])
  | (room_code, game) :: rest =>
    if game.players.contains sid then
      let player_name := ((game.players.find? sid).map Player.name).getD ""
      let game' := game.remove_player sid
      let player_list := game'.players.map fun p => p.2.name
      let emits := [(Audience.room room_code,
                     OutMsg.player_list_update player_list player_list.length),
                    (Audience.room room_code,
                     OutMsg.player_disconnected player_name)]
      if game'.players.isEmpty then (rest, emits)
      else ((room_code, game') :: rest, emits)
    else
      let r := handle_disconnect rest sid
      ((room_code, game) :: r.1, r.2)

/-! ### Basic lemmas about `Dict` -/

theorem Dict.find?_insert_self {α : Type} (d : Dict α) (k : String) (v : α) :
    (d.insert k v).find? k = some v := by
  induction d with
  | nil => simp [Dict.insert, Dict.find?]
  | cons e rest ih =>
    obtain ⟨k', w⟩ := e
    by_cases h : k' = k
    · simp [Dict.insert, h, Dict.find?]
    · simp [Dict.insert, h, Dict.find?, ih]

theorem Dict.find?_insert_ne {α : Type} (d : Dict α) (k k' : String) (v : α)
    (h : k' ≠ k) : (d.insert k v).find? k' = d.find? k' := by
  induction d with
  | nil => simp [Dict.insert, Dict.find?, Ne.symm h]
  | cons e rest ih =>
    obtain ⟨k0, w⟩ := e
    by_cases h0 : k0 = k
    · subst h0
      simp [Dict.insert, Dict.find?, Ne.symm h]
    · by_cases h1 : k0 = k'
      · subst h1
        simp [Dict.insert, h, Dict.find?]
      · simp [Dict.insert, h0, Dict.find?, h1, ih]

theorem Dict.length_insert_of_not_contains {α : Type} (d : Dict α) (k : String)
    (v : α) (h : d.contains k = false) : (d.insert k v).length = d.length + 1 := by
  induction d with
  | nil => simp [Dict.insert]
  | cons e rest ih =>
    obtain ⟨k0, w⟩ := e
    simp only [Dict.contains, Dict.find?] at h
    by_cases h0 : k0 = k
    · simp [h0] at h
    · simp only [Dict.contains] at ih
      have h' : (Dict.find? rest k).isSome = false := by simpa [h0] using h
      simp only [Dict.insert, if_neg h0, List.length_cons]
      rw [ih h']

theorem Dict.insert_of_not_contains {α : Type} (d : Dict α) (k : String) (v : α)
    (h : d.contains k = false) : d.insert k v = d ++ [(k, v)] := by
  induction d with
  | nil => simp [Dict.insert]
  | cons e rest ih =>
    obtain ⟨k0, w⟩ := e
    simp only [Dict.contains, Dict.find?] at h
    by_cases h0 : k0 = k
    · simp [h0] at h
    · simp only [Dict.insert, if_neg h0, List.cons_append, List.cons.injEq, true_and]
      apply ih
      simpa [Dict.contains, h0] using h

theorem Dict.find?_append {α : Type} (a b : Dict α) (k : String) :
    Dict.find? (a ++ b) k =
      match Dict.find? a k with
      | some v => some v
      | none => Dict.find? b k := by
  induction a with
  | nil => simp [Dict.find?]
  | cons e rest ih =>
    obtain ⟨k0, w⟩ := e
    by_cases h0 : k0 = k
    · simp [Dict.find?, h0]
    · simp [Dict.find?, h0, ih]

theorem Dict.contains_append {α : Type} (a b : Dict α) (k : String) :
    Dict.contains (a ++ b) k = (a.contains k || b.contains k) := by
  simp only [Dict.contains, Dict.find?_append a b k]
  cases Dict.find? a k <;> simp

theorem Dict.find?_erase_self {α : Type} (d : Dict α) (k : String)
    (h : (d.map Prod.fst).Nodup) : (d.erase k).find? k = none := by
  induction d with
  | nil => simp [Dict.erase, Dict.find?]
  | cons e rest ih =>
    obtain ⟨k0, w⟩ := e
    simp only [List.map_cons, List.nodup_cons] at h
    by_cases h0 : k0 = k
    · subst h0
      simp only [Dict.erase, if_pos rfl]
      cases hfind : Dict.find? rest k0 with
      | none => exact hfind
      | some v =>
        exfalso
        apply h.1
        clear ih h
        induction rest with
        | nil => simp [Dict.find?] at hfind
        | cons e2 rest2 ih2 =>
          obtain ⟨k2, w2⟩ := e2
          by_cases h2 : k2 = k0
          · simp [h2]
          · simp only [Dict.find?, if_neg h2] at hfind
            simp [ih2 hfind]
    · simp [Dict.erase, h0, Dict.find?, ih h.2]

theorem Dict.contains_erase_self {α : Type} (d : Dict α) (k : String)
    (h : (d.map Prod.fst).Nodup) : (d.erase k).contains k = false := by
  simp [Dict.contains, Dict.find?_erase_self d k h]

/-- Ranks produced by `enum`-then-`+1` are the consecutive naturals. -/
theorem enumFrom_map_fst_succ {α : Type} (l : List α) (n : Nat) :
    (List.enumFrom n l).map (fun ie => ie.1 + 1) = List.range' (n + 1) l.length := by
  induction l generalizing n with
  | nil => simp
  | cons a l ih => simp [List.range', ih]

/-! ### Claim C10: create_room builds an empty LOBBY session -/

/-- Claim C10: a `create_room` event stores, under the first fresh
generated code, a session with empty members, assignments, guess log and
completions, phase LOBBY (`started = false`), the requester recorded only
as `host_id` and not as a member, so the new room has zero members. -/
theorem C10_create_room_fresh_empty_session (games : Registry) (sid : String)
    (codes : List String) (room_code : String)
    (hfresh : firstFresh games codes = some room_code) :
    handle_create_game games sid codes =
      some (games.insert room_code (Game.init sid),
            [(Audience.requester, OutMsg.game_created room_code)]) ∧
    (games.insert room_code (Game.init sid)).find? room_code = some (Game.init sid) ∧
    (Game.init sid).players = [] ∧
    (Game.init sid).assignments = [] ∧
    (Game.init sid).guesses = [] ∧
    (Game.init sid).completed = [] ∧
    (Game.init sid).started = false ∧
    (Game.init sid).host_id = sid ∧
    (Game.init sid).players.contains sid = false ∧
    (Game.init sid).players.length = 0 := by
  refine ⟨?_, Dict.find?_insert_self _ _ _, rfl, rfl, rfl, rfl, rfl, rfl, rfl, rfl⟩
  simp [handle_create_game, hfresh]

/-- Claim C10 witness: creating a room in an empty registry. -/
theorem C10_witness :
    handle_create_game [] "h" ["ABC123"] =
      some (Dict.insert [] "ABC123" (Game.init "h"),
            [(Audience.requester, OutMsg.game_created "ABC123")]) :=
  (C10_create_room_fresh_empty_session [] "h" ["ABC123"] "ABC123" rfl).1

/-! ### Claim C8: guessing after completion is rejected without state change -/

/-- Claim C8: in a started session, a `make_guess` event for a player
already present in `completed` emits the already-completed error to the
requester only and leaves the registry (hence the guess log and the
existing completion entry) unchanged. -/
theorem C8_already_completed_guess_rejected (games : Registry)
    (room_code player_name guessed_santa : String) (game : Game) (now : Nat)
    (hfind : games.find? room_code = some game)
    (hstarted : game.started = true)
    (hcomp : game.completed.contains player_name = true) :
    handle_make_guess games room_code player_name guessed_santa now =
      some (games, [(Audience.requester, OutMsg.error "You already found your Santa!")]) := by
  simp [handle_make_guess, hfind, hstarted, hcomp]

/-- A started one-player session whose player has already completed. -/
def cexC8 : Game :=
  { host_id := "h"
    players := [("s1", { name := "A", joined_at := 0 })]
    assignments := [("A", "A")]
    guesses := [("A", ["A"])]
    completed := [("A", { timestamp := 1, guess_count := 1, santa := "A" })]
    started := true }

/-- Claim C8 witness: a second guess by the completed player `A`. -/
theorem C8_witness :
    handle_make_guess [("R", cexC8)] "R" "A" "B" 9 =
      some ([("R", cexC8)],
            [(Audience.requester, OutMsg.error "You already found your Santa!")]) :=
  C8_already_completed_guess_rejected [("R", cexC8)] "R" "A" "B" cexC8 9 rfl rfl rfl

/-! ### Claim C4: what remove_player does to name-keyed history -/

/-- A session with a member whose name keys entries in all three maps. -/
def cexC4 : Game :=
  { host_id := "h"
    players := [("s1", { name := "A", joined_at := 0 })]
    assignments := [("A", "B")]
    guesses := [("A", ["x"])]
    completed := [("A", { timestamp := 3, guess_count := 1, santa := "B" })]
    started := true }

/-- Claim C4 counterexample: removing the member `s1` (display name `A`)
purges the `A`-keyed entries of `guesses`, `assignments` and `completed`,
so the history does not survive the disconnect. -/
theorem C4_counterexample :
    cexC4.players.contains "s1" = true ∧
    cexC4.guesses.contains "A" = true ∧
    cexC4.assignments.contains "A" = true ∧
    cexC4.completed.contains "A" = true ∧
    (cexC4.remove_player "s1").guesses.contains "A" = false ∧
    (cexC4.remove_player "s1").assignments.contains "A" = false ∧
    (cexC4.remove_player "s1").completed.contains "A" = false := by
  refine ⟨rfl, rfl, rfl, rfl, rfl, rfl, rfl⟩

/-- Claim C4 amended: `remove_player` deletes the membership entry and
also deletes the departing player's display-name-keyed entries in
`guesses`, `assignments` and `completed` (so with duplicate-free keys
none of the three maps contains the name afterwards). -/
theorem C4_amended_remove_player_purges_history (g : Game) (sid : String) (p : Player)
    (hfind : g.players.find? sid = some p)
    (hg : (g.guesses.map Prod.fst).Nodup)
    (ha : (g.assignments.map Prod.fst).Nodup)
    (hc : (g.completed.map Prod.fst).Nodup) :
    (g.remove_player sid).players = g.players.erase sid ∧
    (g.remove_player sid).guesses = g.guesses.erase p.name ∧
    (g.remove_player sid).assignments = g.assignments.erase p.name ∧
    (g.remove_player sid).completed = g.completed.erase p.name ∧
    (g.remove_player sid).guesses.contains p.name = false ∧
    (g.remove_player sid).assignments.contains p.name = false ∧
    (g.remove_player sid).completed.contains p.name = false := by
  simp [Game.remove_player, hfind, Dict.contains_erase_self _ _ hg,
    Dict.contains_erase_self _ _ ha, Dict.contains_erase_self _ _ hc]

/-- Claim C4 amended witness: removing `s1` from the concrete session. -/
theorem C4_amended_witness :
    (cexC4.remove_player "s1").guesses.contains "A" = false ∧
    (cexC4.remove_player "s1").assignments.contains "A" = false ∧
    (cexC4.remove_player "s1").completed.contains "A" = false := by
  have h := C4_amended_remove_player_purges_history cexC4 "s1"
    { name := "A", joined_at := 0 } rfl (by decide) (by decide) (by decide)
  exact ⟨h.2.2.2.2.1, h.2.2.2.2.2.1, h.2.2.2.2.2.2⟩

/-! ### Claim C1: what make_guess compares the guess against -/

/-- A session where two different santas both claim recipient `C`. -/
def cexC1 : Game :=
  { host_id := "h"
    players := [("s1", { name := "A", joined_at := 0 }),
                ("s2", { name := "B", joined_at := 0 }),
                ("s3", { name := "C", joined_at := 0 })]
    assignments := [("A", "C"), ("B", "C")]
    guesses := [("C", [])]
    completed := []
    started := true }

/-- Claim C1 counterexample: `assignments` holds the entry `("B", "C")`,
so some entry has value `C` and key equal to the guess `B`, yet
`make_guess "C" "B"` returns `false`: the scan compares the guess against
the first entry whose value is `C` (here key `A`), not against any such
entry. -/
theorem C1_counterexample :
    ("B", "C") ∈ cexC1.assignments ∧
    (cexC1.make_guess "C" "B" 5).map (fun r => r.2) = some false := by
  refine ⟨by decide, rfl⟩

/-- Claim C1 amended: for a player `p` with a guess history, `make_guess
p q` appends `q` to `guess_log[p]` and returns true iff the first entry
of `assignments` (in insertion order) whose value is `p` has key `q`;
when it returns true it records a completion for `p` whose guess count is
the length of the guess log after the append (a third guess that is the
first correct one yields guess count 3) and whose santa is `q`; otherwise
`completed` is unchanged. -/
theorem C1_amended_make_guess_first_match (g : Game) (p q : String)
    (log : List String) (now : Nat)
    (h : g.guesses.find? p = some log) :
    ∃ g', g.make_guess p q now = some (g', decide (findSanta g.assignments p = some q)) ∧
      g'.guesses.find? p = some (log ++ [q]) ∧
      (findSanta g.assignments p = some q →
        g'.completed.find? p =
          some { timestamp := now, guess_count := log.length + 1, santa := q }) ∧
      (findSanta g.assignments p ≠ some q → g'.completed = g.completed) := by
  simp only [Game.make_guess, h]
  cases hfs : findSanta g.assignments p with
  | none =>
    refine
      ⟨{ g with guesses := g.guesses.insert p (log ++ [q]) },
        ?_, Dict.find?_insert_self _ _ _, ?_, fun _ => rfl⟩
    · simp
    · intro hcontra
      exact absurd hcontra (by simp)
  | some actual_santa =>
    by_cases heq : actual_santa = q
    · subst heq
      refine
        ⟨{ g with
            guesses := g.guesses.insert p (log ++ [actual_santa])
            completed := g.completed.insert p
              { timestamp := now, guess_count := (log ++ [actual_santa]).length,
                santa := actual_santa } },
          ?_, Dict.find?_insert_self _ _ _, ?_, ?_⟩
      · simp
      · intro _
        have := Dict.find?_insert_self g.completed p
          { timestamp := now, guess_count := (log ++ [actual_santa]).length,
            santa := actual_santa }
        simpa using this
      · intro hcontra
        exact absurd rfl hcontra
    · refine
        ⟨{ g with guesses := g.guesses.insert p (log ++ [q]) },
          ?_, Dict.find?_insert_self _ _ _, ?_, fun _ => rfl⟩
      · simp [heq]
      · intro hcontra
        simp only [Option.some.injEq] at hcontra
        exact absurd hcontra heq

/-- Claim C1 amended witness: in `cexC1`, player `C` guessing `A` (the
first-matching santa) succeeds with guess count 1 and santa `A`. -/
theorem C1_amended_witness :
    ∃ g', cexC1.make_guess "C" "A" 5 = some (g', decide (findSanta cexC1.assignments "C" = some "A")) ∧
      g'.guesses.find? "C" = some ["A"] ∧
      (findSanta cexC1.assignments "C" = some "A" →
        g'.completed.find? "C" =
          some { timestamp := 5, guess_count := 1, santa := "A" }) ∧
      (findSanta cexC1.assignments "C" ≠ some "A" → g'.completed = cexC1.completed) :=
  C1_amended_make_guess_first_match cexC1 "C" "A" [] 5 rfl

/-! ### Claim C5: leaderboard order and ranks -/

/-- A session with two completions that tie on both guess count and
timestamp. -/
def cexC5 : Game :=
  { host_id := "h"
    players := [("s1", { name := "A", joined_at := 0 }),
                ("s2", { name := "B", joined_at := 0 })]
    assignments := []
    guesses := []
    completed := [("A", { timestamp := 5, guess_count := 2, santa := "X" }),
                  ("B", { timestamp := 5, guess_count := 2, santa := "Y" })]
    started := true }

/-- Claim C5 counterexample: two completions with equal guess count and
equal timestamp do NOT receive the same rank — `get_leaderboard` numbers
the sorted rows 1, 2, ... unconditionally. -/
theorem C5_counterexample :
    cexC5.completed = [("A", { timestamp := 5, guess_count := 2, santa := "X" }),
                       ("B", { timestamp := 5, guess_count := 2, santa := "Y" })] ∧
    cexC5.get_leaderboard.map LBEntry.rank = [1, 2] := by
  refine ⟨rfl, rfl⟩

/-- Claim C5 amended: `get_leaderboard` lists the completions in an
order that is non-decreasing in `(guess_count, timestamp)` (fewer
guesses first, ties broken by earlier completion time), and the rank
fields are the consecutive positions 1, 2, ..., n of that order —
completions that tie on both components still receive distinct
consecutive ranks, not a shared rank. -/
theorem C5_amended_leaderboard_sorted_ranked (g : Game) :
    ∃ s : Dict Completion,
      s.Perm g.completed ∧
      List.Pairwise lbRel s ∧
      g.get_leaderboard = s.enum.map (fun ie =>
        { rank := ie.1 + 1, player := ie.2.1, guesses := ie.2.2.guess_count,
          santa := ie.2.2.santa }) ∧
      g.get_leaderboard.map LBEntry.rank = List.range' 1 g.completed.length := by
  refine ⟨List.insertionSort lbRel g.completed, List.perm_insertionSort lbRel _,
    List.sorted_insertionSort lbRel _, rfl, ?_⟩
  show ((List.insertionSort lbRel g.completed).enum.map _).map LBEntry.rank = _
  rw [List.map_map]
  have hcomp : (LBEntry.rank ∘ fun ie : Nat × (String × Completion) =>
      ({ rank := ie.1 + 1, player := ie.2.1, guesses := ie.2.2.guess_count,
         santa := ie.2.2.santa } : LBEntry)) = fun ie => ie.1 + 1 := rfl
  rw [hcomp]
  show (List.enumFrom 0 (List.insertionSort lbRel g.completed)).map _ = _
  rw [enumFrom_map_fst_succ]
  rw [List.length_insertionSort]

/-! ### Claim C6: duplicate-name joins are rejected, fresh names admitted -/

/-- Claim C6: in a LOBBY session, a `join_room` whose player name exactly
matches a current member's display name emits the duplicate-name error to
the requester only and changes nothing (registry, hence members map,
count and guess log, is untouched); a join with a fresh name adds the
member (count grows by one for a fresh connection) and initializes an
empty guess history under that name. -/
theorem C6_join_duplicate_name (games : Registry) (sid room_code player_name : String)
    (game : Game) (now : Nat)
    (hfind : games.find? (upper room_code) = some game)
    (hlobby : game.started = false) :
    ((game.players.any fun p => p.2.name = player_name) = true →
      handle_join_game games sid room_code player_name now =
        (games, [(Audience.requester, OutMsg.error "Name already taken")])) ∧
    ((game.players.any fun p => p.2.name = player_name) = false →
      (game.players.contains sid = false →
        (game.add_player sid player_name now).players.length = game.players.length + 1) ∧
      (game.add_player sid player_name now).guesses.find? player_name = some [] ∧
      handle_join_game games sid room_code player_name now =
        (games.insert (upper room_code) (game.add_player sid player_name now),
         [(Audience.requester, OutMsg.joined_game (upper room_code) player_name),
          (Audience.room (upper room_code),
           OutMsg.player_list_update
             ((game.add_player sid player_name now).players.map fun p => p.2.name)
             ((game.add_player sid player_name now).players.map fun p => p.2.name).length)])) := by
  constructor
  · intro hdup
    simp [handle_join_game, hfind, hlobby, hdup]
  · intro hfresh
    refine ⟨?_, Dict.find?_insert_self _ _ _, ?_⟩
    · intro hsid
      exact Dict.length_insert_of_not_contains _ _ _ hsid
    · simp [handle_join_game, hfind, hlobby, hfresh, Game.add_player]

/-- A LOBBY session holding the single member `Alice` on connection `s1`. -/
def cexC6 : Game :=
  { host_id := "h"
    players := [("s1", { name := "Alice", joined_at := 0 })]
    assignments := []
    guesses := [("Alice", [])]
    completed := []
    started := false }

/-- Claim C6 witness: a second join with the name `Alice` from a fresh
connection `s2` is rejected and the registry is unchanged. -/
theorem C6_witness :
    handle_join_game [("AB", cexC6)] "s2" "AB" "Alice" 7 =
      ([("AB", cexC6)], [(Audience.requester, OutMsg.error "Name already taken")]) :=
  (C6_join_duplicate_name [("AB", cexC6)] "s2" "AB" "Alice" cexC6 7 rfl rfl).1 rfl

/-! ### Claim C2: start_room preconditions -/

/-- Claim C2: for a registry whose session under `room_code` (if any) is
still in LOBBY, a `start_room` event leaves the registry with an ACTIVE
phase under `room_code` iff the room exists, the requester is the host
connection and the assignment count equals the member count; when any
precondition fails, the registry is unchanged (phase stays LOBBY) and a
single error is emitted to the requester only. -/
theorem C2_start_room_preconditions (games : Registry) (sid room_code : String)
    (hlobby : ∀ game, games.find? room_code = some game → game.started = false) :
    (((handle_start_game games sid room_code).1.find? room_code).map Game.started =
        some true ↔
      ∃ game, games.find? room_code = some game ∧ sid = game.host_id ∧
        game.assignments.length = game.players.length) ∧
    ((¬ ∃ game, games.find? room_code = some game ∧ sid = game.host_id ∧
        game.assignments.length = game.players.length) →
      (handle_start_game games sid room_code).1 = games ∧
      ∃ msg, (handle_start_game games sid room_code).2 =
        [(Audience.requester, OutMsg.error msg)]) := by
  cases hfind : games.find? room_code with
  | none =>
    constructor
    · simp [handle_start_game, hfind]
    · intro _
      refine ⟨by simp [handle_start_game, hfind], "Game not found", ?_⟩
      simp [handle_start_game, hfind]
  | some game =>
    have hl := hlobby game hfind
    by_cases hhost : sid = game.host_id
    · by_cases hlen : game.assignments.length = game.players.length
      · constructor
        · constructor
          · intro _
            exact ⟨game, rfl, hhost, hlen⟩
          · intro _
            simp [handle_start_game, hfind, hhost, hlen, Dict.find?_insert_self]
        · intro hcontra
          exact absurd ⟨game, rfl, hhost, hlen⟩ hcontra
      · constructor
        · constructor
          · intro habs
            simp [handle_start_game, hfind, hhost, hlen, hl] at habs
          · intro ⟨game2, hfind2, _, hlen2⟩
            cases hfind2
            exact absurd hlen2 hlen
        · intro _
          refine ⟨by simp [handle_start_game, hfind, hhost, hlen],
            "Not all players have submitted assignments", ?_⟩
          simp [handle_start_game, hfind, hhost, hlen]
    · constructor
      · constructor
        · intro habs
          simp [handle_start_game, hfind, hhost, hl] at habs
        · intro ⟨game2, hfind2, hhost2, _⟩
          cases hfind2
          exact absurd hhost2 hhost
      · intro _
        refine ⟨by simp [handle_start_game, hfind, hhost],
          "Only host can start game", ?_⟩
        simp [handle_start_game, hfind, hhost]

/-- A two-member LOBBY session with only one submitted assignment. -/
def cexC2 : Game :=
  { host_id := "h"
    players := [("s1", { name := "A", joined_at := 0 }),
                ("s2", { name := "B", joined_at := 0 })]
    assignments := [("A", "B")]
    guesses := [("A", []), ("B", [])]
    completed := []
    started := false }

/-- Claim C2 witness: a non-host start attempt on a LOBBY session leaves
the phase LOBBY (the iff instantiated where both sides are false). -/
theorem C2_witness :
    (((handle_start_game [("R", cexC2)] "intruder" "R").1.find? "R").map Game.started =
        some true ↔
      ∃ game, Dict.find? [("R", cexC2)] "R" = some game ∧ "intruder" = game.host_id ∧
        game.assignments.length = game.players.length) ∧
    ((¬ ∃ game, Dict.find? [("R", cexC2)] "R" = some game ∧ "intruder" = game.host_id ∧
        game.assignments.length = game.players.length) →
      (handle_start_game [("R", cexC2)] "intruder" "R").1 = [("R", cexC2)] ∧
      ∃ msg, (handle_start_game [("R", cexC2)] "intruder" "R").2 =
        [(Audience.requester, OutMsg.error msg)]) := by
  apply C2_start_room_preconditions
  intro game hgame
  cases hgame
  rfl

/-! ### Claim C7: disconnect prunes a room exactly when it empties -/

/-- What `handle_disconnect` does when the first room containing the
connection sits between a prefix of rooms not containing it and an
arbitrary suffix. -/
theorem handle_disconnect_split (pre post : Registry) (room_code : String)
    (game : Game) (sid : String)
    (hpre : ∀ e ∈ pre, e.2.players.contains sid = false)
    (hmem : game.players.contains sid = true) :
    handle_disconnect (pre ++ (room_code, game) :: post) sid =
      ((if (game.remove_player sid).players.isEmpty then pre ++ post
        else pre ++ (room_code, game.remove_player sid) :: post),
       [(Audience.room room_code,
         OutMsg.player_list_update
           ((game.remove_player sid).players.map fun p => p.2.name)
           ((game.remove_player sid).players.map fun p => p.2.name).length),
        (Audience.room room_code,
         OutMsg.player_disconnected
           (((game.players.find? sid).map Player.name).getD ""))]) := by
  induction pre with
  | nil =>
    simp only [List.nil_append, handle_disconnect, hmem, if_true]
    by_cases he : (game.remove_player sid).players.isEmpty
    · simp [he]
    · simp [he]
  | cons e pre ih =>
    have hhead : e.2.players.contains sid = false := hpre e (by simp)
    have htail : ∀ e2 ∈ pre, e2.2.players.contains sid = false :=
      fun e2 h2 => hpre e2 (by simp [h2])
    obtain ⟨ecode, egame⟩ := e
    simp only [List.cons_append, handle_disconnect]
    rw [if_neg (by simp_all)]
    simp only [List.append_eq]
    rw [ih htail]
    by_cases he : (game.remove_player sid).players.isEmpty
    · simp [he]
    · simp [he]

/-- Claim C7: after a disconnect of a member is processed, the room the
member was in is kept in the registry iff its members map stayed
non-empty: removing the last member deletes the registry entry (the
other rooms are untouched), removing a non-last member leaves the room
present under its code with the member removed. -/
theorem C7_disconnect_removes_empty_room (pre post : Registry) (room_code : String)
    (game : Game) (sid : String)
    (hpre : ∀ e ∈ pre, e.2.players.contains sid = false)
    (hmem : game.players.contains sid = true)
    (hpre_code : Dict.contains pre room_code = false)
    (hpost_code : Dict.contains post room_code = false) :
    (handle_disconnect (pre ++ (room_code, game) :: post) sid).1 =
      (if (game.remove_player sid).players.isEmpty then pre ++ post
       else pre ++ (room_code, game.remove_player sid) :: post) ∧
    Dict.contains (handle_disconnect (pre ++ (room_code, game) :: post) sid).1
        room_code =
      !(game.remove_player sid).players.isEmpty := by
  rw [handle_disconnect_split pre post room_code game sid hpre hmem]
  refine ⟨rfl, ?_⟩
  by_cases he : (game.remove_player sid).players.isEmpty
  · simp [he, Dict.contains_append, hpre_code, hpost_code]
  · have hpre_none : Dict.find? pre room_code = none := by
      cases hfp : Dict.find? pre room_code with
      | none => rfl
      | some v => simp [Dict.contains, hfp] at hpre_code
    simp [he, Dict.contains, Dict.find?_append, hpre_none, Dict.find?]

/-- A registry holding one room `R` whose only member is connection `s1`. -/
def cexC7 : Game :=
  { host_id := "s1"
    players := [("s1", { name := "A", joined_at := 0 })]
    assignments := []
    guesses := [("A", [])]
    completed := []
    started := false }

/-- Claim C7 witness: disconnecting the last member deletes the room. -/
theorem C7_witness :
    (handle_disconnect [("R", cexC7)] "s1").1 = [] ∧
    Dict.contains (handle_disconnect [("R", cexC7)] "s1").1 "R" = false := by
  have h := C7_disconnect_removes_empty_room [] [] "R" cexC7 "s1"
    (by intro e he; cases he) rfl rfl rfl
  exact ⟨h.1, h.2⟩

/-! ### Claim C3: which handlers normalize the room identifier -/

/-- A registry holding a room registered under the uppercase code `AB`. -/
def cexC3 : Registry := [("AB", Game.init "h")]

/-- Claim C3 counterexample: the room `AB` exists and `ab` uppercases to
`AB`, yet `submit_assignment` with the lowercase identifier `ab` fails
with the not-found error instead of resolving the room — the identifier
is not normalized before lookup in that handler. -/
theorem C3_counterexample :
    Dict.contains cexC3 "AB" = true ∧
    upper "ab" = "AB" ∧
    handle_submit_assignment cexC3 "ab" "P" "Q" =
      (cexC3, [(Audience.requester, OutMsg.error "Game not found")]) := by
  refine ⟨rfl, rfl, rfl⟩

/-- Claim C3 amended: only `join_room` normalizes the inbound room
identifier to uppercase before the registry lookup; `submit_assignment`,
`start_room`, `make_guess` and `get_state` look the identifier up
verbatim.  Each handler emits the single not-found error to the
requester exactly when its own lookup key — the uppercased identifier
for `join_room`, the raw identifier for the rest — is absent from the
registry. -/
theorem C3_amended_lookup_keys (games : Registry)
    (sid room_code player_name got_name guessed_santa : String) (now : Nat) :
    ((handle_join_game games sid room_code player_name now).2 =
        [(Audience.requester, OutMsg.error "Game not found")] ↔
      games.find? (upper room_code) = none) ∧
    ((handle_submit_assignment games room_code player_name got_name).2 =
        [(Audience.requester, OutMsg.error "Game not found")] ↔
      games.find? room_code = none) ∧
    ((handle_start_game games sid room_code).2 =
        [(Audience.requester, OutMsg.error "Game not found")] ↔
      games.find? room_code = none) ∧
    ((handle_get_game_state games room_code).2 =
        [(Audience.requester, OutMsg.error "Game not found")] ↔
      games.find? room_code = none) ∧
    ((handle_make_guess games room_code player_name guessed_santa now).map
        Prod.snd =
        some [(Audience.requester, OutMsg.error "Game not found")] ↔
      games.find? room_code = none) := by
  refine ⟨?_, ?_, ?_, ?_, ?_⟩
  · cases hfind : games.find? (upper room_code) with
    | none => simp [handle_join_game, hfind]
    | some game =>
      simp only [handle_join_game, hfind]
      by_cases hst : game.started
      · simp [hst]
      · by_cases hdup : (game.players.any fun p => p.2.name = player_name) = true
        · simp [hst, hdup]
        · simp [hst, hdup]
  · cases hfind : games.find? room_code with
    | none => simp [handle_submit_assignment, hfind]
    | some game => simp [handle_submit_assignment, hfind]
  · cases hfind : games.find? room_code with
    | none => simp [handle_start_game, hfind]
    | some game =>
      simp only [handle_start_game, hfind]
      by_cases hhost : sid = game.host_id
      · by_cases hlen : game.assignments.length = game.players.length
        · simp [hhost, hlen]
        · simp [hhost, hlen]
      · simp [hhost]
  · cases hfind : games.find? room_code with
    | none => simp [handle_get_game_state, hfind]
    | some game => simp [handle_get_game_state, hfind]
  · cases hfind : games.find? room_code with
    | none => simp [handle_make_guess, hfind]
    | some game =>
      simp only [handle_make_guess, hfind]
      by_cases hst : game.started
      · by_cases hcomp : game.completed.contains player_name = true
        · simp [hst, hcomp]
        · cases hmg : game.make_guess player_name guessed_santa now with
          | none => simp [hst, hcomp, hmg]
          | some r =>
            obtain ⟨game2, correct⟩ := r
            by_cases hc : correct
            · simp [hst, hcomp, hmg, hc]
            · simp [hst, hcomp, hmg, hc]
      · simp [hst]

/-! ### Claim C9: make_guess is not total for non-member players -/

/-- The session after `Alice` joins the freshly created room. -/
def c9lobby : Game :=
  { host_id := "h"
    players := [("s1", { name := "Alice", joined_at := 1 })]
    assignments := []
    guesses := [("Alice", [])]
    completed := []
    started := false }

/-- The session after `Alice` submits her assignment. -/
def c9ready : Game :=
  { c9lobby with assignments := [("Alice", "Alice")] }

/-- The session after the host starts the game. -/
def c9active : Game :=
  { c9ready with started := true }

/-- Claim C9: a state reached by create → join → submit → start, in
which the room exists and is started and `Bob` is not in `completed` but
also never joined (no `guesses` entry), makes the `make_guess` handler
hit an unhandled `KeyError` (modelled as `none`): the router checks the
room and the phase but never that the player is a member. -/
theorem C9_make_guess_keyerror_reachable :
    (handle_create_game [] "h" ["ROOM01"]).map Prod.fst =
      some [("ROOM01", Game.init "h")] ∧
    (handle_join_game [("ROOM01", Game.init "h")] "s1" "ROOM01" "Alice" 1).1 =
      [("ROOM01", c9lobby)] ∧
    (handle_submit_assignment [("ROOM01", c9lobby)] "ROOM01" "Alice" "Alice").1 =
      [("ROOM01", c9ready)] ∧
    (handle_start_game [("ROOM01", c9ready)] "h" "ROOM01").1 =
      [("ROOM01", c9active)] ∧
    c9active.started = true ∧
    Dict.contains c9active.completed "Bob" = false ∧
    Dict.contains c9active.guesses "Bob" = false ∧
    handle_make_guess [("ROOM01", c9active)] "ROOM01" "Bob" "Alice" 9 = none := by
  refine ⟨rfl, rfl, rfl, rfl, rfl, rfl, rfl, rfl⟩

end SecretSanta
